import Mathlib

/-!
Shallow embedding of the qiskit-api-go client library (Go) in Lean 4.

The embedding follows the Go sources of the repository:
  * connection / dial options / retry engine (`Dial`, `Conn.obtainToken`,
    `Conn.do` - embedded as `Conn.doRequest` since `do` is a Lean keyword),
  * backend registry (`OldBackendNames`, `Client.checkBackend`,
    `Client.AvailableBackends`),
  * client options (`ClientOption` and the `With...` constructors),
  * job submission (`Client.RunExperiment`, `Client.RunJob`).

Go maps are modeled as association lists up to lookup, Go integer types as
`Int`/`Nat` (`uint64` seed values as `Nat`; no arithmetic in the embedded
code can overflow, the only operations are comparisons), `time.Duration` as
`Int` nanoseconds, and `float64` fields that no embedded operation reads as
`Float`.  Network and JSON effects are passed in as explicit oracles: a
`Transport` gives the result of each `http.Client.Do` call, a `ReauthOracle`
gives the outcome of each `Conn.obtainToken` call made from inside the retry
loop, and the client-level operations take the composite of request plus JSON
decoding as a function argument.  State mutation through pointers is
expressed by returning the updated state.
-/

namespace QiskitApiGo

/-- Go `error` values produced by the library.  `ApiErr` carries a user and a
developer message (`errors.go`); `CredentialsErr` wraps an `ApiErr`;
`BadBackendErr` is a struct carrying the unresolved backend name (its
definition lives in a repository file not included under `src/`, its use in
`RunExperiment`/`RunJob` shows it carries the backend name); `serverErr`
embeds the decoded server-side error object `httpErr`; `netErr` stands for a
transport-level error returned by `http.Client.Do`. -/
inductive GoError where
  | apiErr (usrMsg devMsg : String)
  | credentialsErr (usrMsg devMsg : String)
  | badBackendErr (backend : String)
  | serverErr (msg : String)
  | netErr (msg : String)
deriving DecidableEq, Repr

/-- Modelled from the spec: `httpErr` is defined in a repository file that is
not included under `src/`.  It is the "known server error shape" decoded from
response bodies ("Server-reported structured errors embedded in a decoded
response body are surfaced as the returned error").  None of its fields are
read by the embedded operations, so it is carried as one message payload. -/
structure httpErr where
  msg : String := ""
deriving DecidableEq, Repr

/-- Essentials of a Go `http.Response`: the status code and the body text. -/
structure HttpResponse where
  statusCode : Nat
  body : String := ""
deriving DecidableEq, Repr

/-- Result of one `http.Client.Do` call: either a response, or a non-nil
transport error (in which case the response pointer is nil). -/
inductive TransportResult where
  | resp (r : HttpResponse)
  | err (e : GoError)
deriving DecidableEq, Repr

/-- Dial-time connection options (`dialOptions` struct).  Field defaults are
the Go zero values. -/
structure dialOptions where
  apiToken : String := ""
  email : String := ""
  password : String := ""
  accessToken : String := ""
  userId : String := ""
  url : String := ""
  proxyUrls : List (String × String) := []
  ntmlUsername : String := ""
  ntmlPassword : String := ""
  retries : Int := 0
  timeout : Int := 0
deriving DecidableEq, Repr

/-- DefaultUrl is the default IBM QX API endpoint URL. -/
def DefaultUrl : String := "https://quantumexperience.ng.bluemix.net/api"

/-- DefaultRetries is the default number of retries every request gets. -/
def DefaultRetries : Int := 5

/-- DefaultTimeout is the default timeout for each request, in nanoseconds
(`30 * time.Second`). -/
def DefaultTimeout : Int := 30 * 1000000000

/-- Conn is a representation of a connection to the IBM QX API.  The embedded
`http.Client` only holds the timeout, which mirrors `dopts.timeout`. -/
structure Conn where
  dopts : dialOptions
deriving DecidableEq, Repr

/-- DialOption configures how the connection works.  In Go this is
`func(*dialOptions)`: the options struct is passed by pointer, so the
assignments made by each option persist; the embedding returns the updated
struct. -/
def DialOption : Type := dialOptions → dialOptions

/-- WithApiToken configures the connection to obtain the access token by
using the API token. -/
def WithApiToken (token : String) : DialOption :=
  fun options => { options with apiToken := token }

/-- WithAccessInfo configures the connection already with an API access token
and a user id. -/
def WithAccessInfo (token userId : String) : DialOption :=
  fun options => { options with accessToken := token, userId := userId }

/-- WithLoginInfo configures the connection to obtain the access token by
using the login info. -/
def WithLoginInfo (email password : String) : DialOption :=
  fun options => { options with email := email, password := password }

/-- WithApiUrl configures the connection to use the provided url. -/
def WithApiUrl (url : String) : DialOption :=
  fun options => { options with url := url }

/-- WithRetries configures the number of retries performed for any request. -/
def WithRetries (retries : Int) : DialOption :=
  fun options => { options with retries := retries }

/-- WithDialTimeout configures the timeout for each request (Go name:
`WithTimeout` in the connection file). -/
def WithDialTimeout (timeout : Int) : DialOption :=
  fun options => { options with timeout := timeout }

/-! Client options (`client.go`). -/

/-- Call/client-level options (`clientOptions` struct).  Field defaults are
the Go zero values.  The Go `seed` field is `uint64`, embedded as `Nat` (the
only operation performed on it is a comparison). -/
structure clientOptions where
  clientAppl : String := ""
  backend : String := ""
  shots : Int := 0
  name : String := ""
  timeout : Int := 0
  seed : Nat := 0
  maxCredits : Int := 0
  mso : Bool := false
  omp : Int := 0
  hub : String := ""
  group : String := ""
  project : String := ""
deriving DecidableEq, Repr

/-- DefaultClientAppl is the default client application name. -/
def DefaultClientAppl : String := "qiskit-sdk-go"

/-- MaxSeed is the maximum seed value (`uint64` constant 9999999999). -/
def MaxSeed : Nat := 9999999999

/-- DefaultBackend is the default backend for jobs and experiments. -/
def DefaultBackend : String := "simulator"

/-- DefaultShots is the default number of shots. -/
def DefaultShots : Int := 1

/-- MaxShots is the maximum shots an experiment can be ran for. -/
def MaxShots : Int := 8192

/-- ClientOption configures how the client is set up.  In Go this is
`type ClientOption func(clientOptions)`: unlike `DialOption`, the options
struct is passed BY VALUE.  The embedding keeps the closure body as a
function on its (copied) parameter; see `applyClientOption` for the
call-by-value application the Go code performs. -/
def ClientOption : Type := clientOptions → clientOptions

/-- WithClientApplication specifies which client is using the QX platform. -/
def WithClientApplication (appl : String) : ClientOption :=
  fun options => { options with clientAppl := DefaultClientAppl ++ ":" ++ appl }

/-- WithBackend sets the backend field of its by-value parameter. -/
def WithBackend (backend : String) : ClientOption :=
  fun options => { options with backend := backend }

/-- WithShots sets the shots field of its by-value parameter. -/
def WithShots (shots : Int) : ClientOption :=
  fun options => { options with shots := shots }

/-- WithName sets the name field of its by-value parameter. -/
def WithName (name : String) : ClientOption :=
  fun options => { options with name := name }

/-- JobTimeout sets the timeout field of its by-value parameter. -/
def JobTimeout (timeout : Int) : ClientOption :=
  fun options => { options with timeout := timeout }

/-- WithSeed sets the seed field of its by-value parameter. -/
def WithSeed (seed : Nat) : ClientOption :=
  fun options => { options with seed := seed }

/-- WithMaxCredits sets the maxCredits field of its by-value parameter. -/
def WithMaxCredits (credits : Int) : ClientOption :=
  fun options => { options with maxCredits := credits }

/-- WithHPC sets the HPC fields of its by-value parameter. -/
def WithHPC (mso : Bool) (omp : Int) : ClientOption :=
  fun options => { options with mso := mso, omp := omp }

/-- WithIbmQInfo sets the IBM Q fields of its by-value parameter. -/
def WithIbmQInfo (hub group project : String) : ClientOption :=
  fun options => { options with hub := hub, group := group, project := project }

/-- Application of one `ClientOption` the way the Go code calls it
(`option(c.opts)` in `NewClient`, `RunExperiment`, `RunJob`,
`AvailableBackends`): because `ClientOption` receives `clientOptions` by
value, the closure mutates a copy that the caller immediately discards, so
the stored options are returned unchanged.  The discarded copy is kept as an
explicit `let` so that the call is still visible in the embedding. -/
def applyClientOption (opts : clientOptions) (o : ClientOption) : clientOptions :=
  let _mutatedCopy := o opts
  opts

/-- Ordered application of a list of client options, as done by the
`for _, option := range options { option(c.opts) }` loops. -/
def applyClientOptions (opts : clientOptions) (os : List ClientOption) : clientOptions :=
  os.foldl applyClientOption opts

/-! Backend registry (part_001). -/

/-- OldBackendNames is a map of all the recognized old backend names,
embedded as an association list (keys are distinct).  The value for "qx5q"
is the literal "rea;" from the source. -/
def OldBackendNames : List (String × String) :=
  [ ("ibmqx5qv2", "real")
  , ("ibmqx2", "real")
  , ("qx5qv2", "real")
  , ("qx5q", "rea;")
  , ("real", "real")
  , ("ibmqx3", "ibmqx3")
  , ("simulator", "sim_trivial_2")
  , ("sim_trivial_2", "sim_trivial_2")
  , ("ibmqx_qasm_simulator", "sim_trivial_2")
  ]

/-- Backend represents a backend available to be used.  The Go `CouplingMap`
field has type `interface\x7b\x7d` (a decoded JSON payload that is never
inspected by the embedded code) and is carried as a string; `Version` is a
`float64` that is likewise never read. -/
structure Backend where
  serialNum : String := ""
  id : String := ""
  topologyId : String := ""
  couplingMap : String := ""
  name : String := ""
  status : String := ""
  description : String := ""
  simulator : Bool := false
  nqubits : Int := 0
  version : Float := 0
  onlineDate : String := ""
  url : String := ""
  chipName : String := ""
  basisGates : String := ""

/-- Job represents one or more QASM 2.0 experiments.  The mutex field of the
Go struct carries no data and is dropped. -/
structure Job where
  isExperiment : Bool := false
  id : String := ""
  name : String := ""
  timeout : Int := 0
  shots : Int := 0
  maxCredits : Int := 0
  qasm : List String := []

/-- NewJob returns a Job; shots above `MaxShots` are clamped to `MaxShots`. -/
def NewJob (qasms : List String) (shots maxCredits : Int) : Job :=
  let shots := if shots > MaxShots then MaxShots else shots
  { shots := shots, maxCredits := maxCredits, qasm := qasms }

/-- Client represents the IBM QX API client: stored options, the shared
connection, the backend registry and the jobs map (both Go maps, embedded as
association lists).  The mutex carries no data and is dropped. -/
structure Client where
  opts : clientOptions
  conn : Conn
  backends : List (String × Backend)
  jobs : List (String × Job)

/-- NewClient returns an IBMQuantumExperience API client.  Each option is
applied to the freshly zeroed options struct by value (`option(opts)`), then
the client application default is set. -/
def NewClient (conn : Conn) (options : List ClientOption) : Client :=
  let opts := applyClientOptions {} options
  let opts := if opts.clientAppl = "" then { opts with clientAppl := DefaultClientAppl } else opts
  { opts := opts, conn := conn, backends := [], jobs := [] }

/-- Go strings.ToLower, embedded as a character-wise lowercase map (all the
names this library handles are ASCII, for which the Go and Unicode simple
lowercase maps agree with `Char.toLower`).  Written by structural recursion
over the character list so that concrete resolutions compute. -/
def goToLower (s : String) : String := String.mk (s.data.map Char.toLower)

/-- Go map assignment `m[k] = v`, modeled on association lists up to lookup:
the new binding shadows and replaces any previous binding of `k`. -/
def mapInsert (m : List (String × Backend)) (k : String) (v : Backend) :
    List (String × Backend) :=
  (k, v) :: m.filter (fun p => p.1 != k)

/-- Client.checkBackend (part_001 lines 90-105).  The Go method locks the
client mutex and only reads; the embedding threads the client state through
so that the frame of the operation is visible in its type. -/
def Client.checkBackend (c : Client) (backendName endpoint : String) :
    Client × String :=
  let og_backend := backendName
  let backendName := goToLower backendName
  if endpoint = "experiment" then
    match OldBackendNames.lookup backendName with
    | some b => (c, b)
    | none =>
      match c.backends.lookup og_backend with
      | some _ => (c, backendName)
      | none => (c, "")
  else
    match c.backends.lookup og_backend with
    | some _ => (c, backendName)
    | none => (c, "")

/-- Endpoint chosen by `AvailableBackends`: the project-scoped one when hub,
group and project are all set, else the global "Backends" endpoint. -/
def availableBackendsUrl (o : clientOptions) : String :=
  if o.hub ≠ "" ∧ o.group ≠ "" ∧ o.project ≠ "" then
    "Network/" ++ o.hub ++ "/Groups/" ++ o.group ++ "/Projects/" ++ o.project ++ "/backends"
  else
    "Backends"

/-- Registry update loop of `AvailableBackends`: every fetched backend whose
status equals "on" is written into the map under its name. -/
def insertOnBackends (m : List (String × Backend)) (fetched : List Backend) :
    List (String × Backend) :=
  fetched.foldl (fun m b => if b.status = "on" then mapInsert m b.name b else m) m

/-- Client.AvailableBackends (part_001 lines 53-88).  `fetch` stands for the
composite of `c.conn.get` on the chosen url and JSON decoding into a backend
list; on a network or decode error the source calls `log.Fatalln`, which
terminates the process - embedded as `none`.  On success the registry is
updated under the lock and the full accumulated registry is returned. -/
def Client.AvailableBackends (c : Client) (options : List ClientOption)
    (fetch : String → Except GoError (List Backend)) :
    Option (Client × List (String × Backend)) :=
  let opts := applyClientOptions c.opts options
  let c : Client := { c with opts := opts }
  let url := availableBackendsUrl c.opts
  match fetch url with
  | .error _ => none
  | .ok fetched =>
    let c : Client := { c with backends := insertOnBackends c.backends fetched }
    some (c, c.backends)

/-! Request / retry engine (part_002). -/

/-- Transport oracle: the result of the i-th `c.c.Do(req)` call made on the
request being retried (indexed from 0, counting re-issues after a 401). -/
def Transport : Type := Nat → TransportResult

/-- Re-authentication oracle: the outcome of the i-th `c.obtainToken()` call
made from inside the retry loop.  On success `obtainToken` stores the decoded
user id and access token - the only two fields it writes - so a successful
outcome is that pair. -/
def ReauthOracle : Type := Nat → Except GoError (String × String)

/-- Final `(resp, err)` pair of `Conn.do`, plus the nil-dereference panic the
Go code hits if the re-issued request after a 401 fails at transport level
(the error of the second `c.c.Do` is never checked before
`resp.StatusCode` is read, and on a transport error the response is nil). -/
inductive DoResult where
  | ret (resp : Option HttpResponse) (err : Option GoError)
  | panicked
deriving DecidableEq, Repr

/-- Generic error returned when the retry budget is exhausted. -/
def failedRespErr : GoError :=
  .apiErr "Failed to get proper response from backend" ""

/-- Retry loop body of `Conn.do` (part_002 lines 234-259), by structural
recursion on the remaining `retrys` budget.  Arguments after the oracles:
remaining budget, last response seen (the named return value `resp`, nil
before the first transport call), current connection options, number of
transport calls made so far, number of re-authentication attempts made so
far.  Returns the final options, both counters, and the result. -/
def doLoop (transport : Transport) (reauth : ReauthOracle) :
    Nat → Option HttpResponse → dialOptions → Nat → Nat →
    dialOptions × Nat × Nat × DoResult
  | 0, lastResp, dopts, calls, reauths =>
    (dopts, calls, reauths, .ret lastResp (some failedRespErr))
  | n + 1, _lastResp, dopts, calls, reauths =>
    match transport calls with
    | .err e => (dopts, calls + 1, reauths, .ret none (some e))
    | .resp r =>
      if r.statusCode = 401 then
        match reauth reauths with
        | .error e => (dopts, calls + 1, reauths + 1, .ret (some r) (some e))
        | .ok (uid, tok) =>
          let dopts := { dopts with userId := uid, accessToken := tok }
          match transport (calls + 1) with
          | .err _ => (dopts, calls + 2, reauths + 1, .panicked)
          | .resp r2 =>
            if r2.statusCode = 200 then (dopts, calls + 2, reauths + 1, .ret (some r2) none)
            else doLoop transport reauth n (some r2) dopts (calls + 2) (reauths + 1)
      else
        if r.statusCode = 200 then (dopts, calls + 1, reauths, .ret (some r) none)
        else doLoop transport reauth n (some r) dopts (calls + 1) reauths

/-- Conn.do (part_002 lines 232-263; `do` is a Lean keyword, hence the name
`doRequest`).  Runs the retry loop with the configured retry budget: the Go
loop `for retrys > 0` performs `max retrys 0` iterations, i.e.
`retries.toNat`.  A 200 response returns immediately; a 401 response
triggers one re-authentication and one re-issue of the request inside the
same iteration; any other response (and a 401 whose re-issue came back
non-200) falls through and consumes one unit of the budget; a transport
error on the first call of an iteration returns immediately; an exhausted
budget returns `failedRespErr`. -/
def Conn.doRequest (c : Conn) (transport : Transport) (reauth : ReauthOracle) :
    dialOptions × Nat × Nat × DoResult :=
  doLoop transport reauth c.dopts.retries.toNat none c.dopts 0 0

/-! Authentication (part_002: `Dial`, `Conn.obtainToken`). -/

/-- Internal type for making obtainToken requests (`loginReq`). -/
structure loginReq where
  token : String := ""
  email : String := ""
  password : String := ""
deriving DecidableEq, Repr

/-- Decoded login response (`loginResp`); it embeds `httpErr`, whose fields
`obtainToken` never reads. -/
structure loginResp where
  herr : httpErr := {}
  created : String := ""
  userId : String := ""
  id : String := ""
  ttl : Float := 0

/-- Login oracle: the composite of JSON-encoding the login request, POSTing
it to the given url through `c.do`, and JSON-decoding the response body into
a `loginResp`.  An error from any of those stages is the `.error` case. -/
def LoginOracle : Type := String → loginReq → Except GoError loginResp

/-- Conn.obtainToken (part_002 lines 161-208).  Builds the login request
from the stored credentials (API token first, else email and password, else
a credentials error), appends "WithToken" to the login url for token-based
login, executes it, and on success stores the decoded user id and access
token - the only fields it writes. -/
def Conn.obtainToken (c : Conn) (login : LoginOracle) : Except GoError Conn :=
  if c.dopts.apiToken ≠ "" then
    let req : loginReq := { token := c.dopts.apiToken }
    match login (c.dopts.url ++ "/users/login" ++ "WithToken") req with
    | .error e => .error e
    | .ok r =>
      .ok { c with dopts := { c.dopts with userId := r.userId, accessToken := r.id } }
  else if c.dopts.email ≠ "" ∧ c.dopts.password ≠ "" then
    let req : loginReq := { email := c.dopts.email, password := c.dopts.password }
    match login (c.dopts.url ++ "/users/login") req with
    | .error e => .error e
    | .ok r =>
      .ok { c with dopts := { c.dopts with userId := r.userId, accessToken := r.id } }
  else
    .error (.credentialsErr
      "invalid credentials, please provide either API token or user email and password" "")

/-- Default block of `Dial`: url, retry-count and timeout defaults for the
zero-valued fields. -/
def dialDefaults (d : dialOptions) : dialOptions :=
  let d := if d.url = "" then { d with url := DefaultUrl } else d
  let d := if d.retries = 0 then { d with retries := DefaultRetries } else d
  if d.timeout = 0 then { d with timeout := DefaultTimeout } else d

/-- Option block of `Dial`: the ordered application of the dial options to
the zero-valued options struct (`for _, option := range options`). -/
def dialBuiltOptions (options : List DialOption) : dialOptions :=
  options.foldl (fun o f => f o) {}

/-- Dial (part_002 lines 110-144).  Applies the dial options to zeroed
options, rejects missing credentials, fills in the url, retry and timeout
defaults, and obtains an access token when none was pre-supplied.  The Go
function returns the connection together with a possibly non-nil error; a
non-nil error makes the connection unusable, so the embedding returns
`Except`. -/
def Dial (options : List DialOption) (login : LoginOracle) : Except GoError Conn :=
  let dopts : dialOptions := dialBuiltOptions options
  if dopts.apiToken = "" ∧ dopts.email = "" ∧ dopts.accessToken = "" then
    .error (.credentialsErr
      "missing credentials to obtain access token. please provide either, api token or email/password" "")
  else
    let c : Conn := { dopts := dialDefaults dopts }
    if c.dopts.accessToken = "" then c.obtainToken login else .ok c

/-! Job / experiment submission (the job file combined into src/errors.go). -/

/-- Request body for `codes/execute` (`jobExecReq`).  `RunExperiment` only
sets `name`, `qasm` and `codeType`; the remaining fields keep their zero
values (Go `float64` fields as `Float`, `int32` seed as `Int`). -/
structure jobExecReq where
  qasm : String := ""
  codeType : String := ""
  name : String := ""
  qasms : List String := []
  shots : Float := 0
  bckend : Backend := {}
  maxCredit : Float := 0
  seed : Int := 0
  hpcMso : Bool := false
  hpcOmp : Int := 0

/-- Decoded response of `codes/execute` (`jobExecResp`).  The only field the
embedded code reads is the optional server-side error object; the many other
decoded fields (id, deviceId, shots, status, result, calibration, code) are
never read by `RunExperiment` and are elided. -/
structure jobExecResp where
  err : Option httpErr := none
  id : String := ""

/-- Post oracle for the submission path: the composite of JSON-encoding the
request body (which cannot fail for `jobExecReq`), `c.conn.post` on the
given path and query parameters, and JSON-decoding the response body into a
`jobExecResp`.  An error from the post or the decode is the `.error` case. -/
def PostOracle : Type := String → String → jobExecReq → Except GoError jobExecResp

/-- Result of a client-level run call: the updated client (the Go methods
mutate the client through its pointer receiver), the returned error, and the
number of `c.conn.post` calls the method performed. -/
structure RunOutcome where
  client : Client
  err : Option GoError := none
  postCalls : Nat := 0

/-- Error returned for an oversized seed: `ApiErr` with the user message
produced by the `fmt.Sprintf` in `RunExperiment`/`RunJob`. -/
def seedErr (seed : Nat) : GoError :=
  .apiErr ("invalid seed (" ++ toString seed ++ "), seeds can have a maximum length of 10 digits") ""

/-- Timestamp used by the default experiment name (`time.Now()` broken into
the components the format string consumes). -/
structure TimeStamp where
  year : Nat := 0
  month : Nat := 0
  day : Nat := 0
  hour : Nat := 0
  minute : Nat := 0
  second : Nat := 0

/-- DefaultNameFmt "Experiment #%d%d%d%d%d%d" applied to the current time
(Go prints `time.Month` under %d as its number). -/
def defaultName (now : TimeStamp) : String :=
  "Experiment #" ++ toString now.year ++ toString now.month ++ toString now.day
    ++ toString now.hour ++ toString now.minute ++ toString now.second

/-- Default block of `RunExperiment`: direct assignments to `c.opts` (these,
unlike option application, persist on the client): backend "simulator",
name derived from the current time, shots 1. -/
def applyRunDefaults (c : Client) (now : TimeStamp) : Client :=
  let c := if c.opts.backend = "" then { c with opts := { c.opts with backend := DefaultBackend } } else c
  let c := if c.opts.name = "" then { c with opts := { c.opts with name := defaultName now } } else c
  if c.opts.shots = 0 then { c with opts := { c.opts with shots := DefaultShots } } else c

/-- Continuation of `RunExperiment` after the seed validation: backend
resolution, QASM header stripping, query-parameter and body construction,
the POST to `codes/execute`, and surfacing of a decoded server-side error. -/
def Client.runExperimentSubmit (c : Client) (qasm : String) (post : PostOracle) :
    RunOutcome :=
  let (c, backendType) := c.checkBackend c.opts.backend "experiment"
  if backendType = "" then
    { client := c, err := some (.badBackendErr c.opts.backend), postCalls := 0 }
  else
    let qasm := (qasm.replace "IBMQASM 2.0;" "").replace "OPENQASM 2.0;" ""
    let params :=
      if c.opts.seed > 0 then
        "&shots=" ++ toString c.opts.shots ++ "&seed=" ++ toString c.opts.seed
          ++ "&deviceRunType=" ++ backendType
      else
        "&shots=" ++ toString c.opts.shots ++ "&deviceRunType=" ++ backendType
    let req : jobExecReq := { name := c.opts.name, qasm := qasm, codeType := "QASM2" }
    match post "codes/execute" params req with
    | .error e => { client := c, err := some e, postCalls := 1 }
    | .ok i =>
      match i.err with
      | some e => { client := c, err := some (.serverErr e.msg), postCalls := 1 }
      | none => { client := c, err := none, postCalls := 1 }

/-- Client.RunExperiment (job file).  Applies the call-time options to
`c.opts` by value (no field persists, see `applyClientOption`), sets the
defaults by direct assignment, validates the seed against `MaxSeed` before
any network activity, then continues with `runExperimentSubmit`. -/
def Client.RunExperiment (c : Client) (qasm : String) (options : List ClientOption)
    (now : TimeStamp) (post : PostOracle) : RunOutcome :=
  let c : Client := { c with opts := applyClientOptions c.opts options }
  let c := applyRunDefaults c now
  if c.opts.seed > MaxSeed then
    { client := c, err := some (seedErr c.opts.seed), postCalls := 0 }
  else
    c.runExperimentSubmit qasm post

/-- Continuation of `RunJob` after the seed validation: backend resolution
with operation kind "job", then `return nil` - the source builds no request
body and performs no dispatch (see the Go function body, which ends right
after the backend check). -/
def Client.runJobResolve (c : Client) : RunOutcome :=
  let (c, backendType) := c.checkBackend c.opts.backend "job"
  if backendType = "" then
    { client := c, err := some (.badBackendErr c.opts.backend), postCalls := 0 }
  else
    { client := c, err := none, postCalls := 0 }

/-- Client.RunJob (job file).  Applies the call-time options by value, sets
its defaults through `WithBackend(DefaultBackend)(c.opts)` and
`WithShots(DefaultShots)(c.opts)` - option applications that also receive
the struct by value and therefore persist nothing - validates the seed, and
resolves the backend with kind "job".  The job argument is never read or
mutated and no request is ever sent. -/
def Client.RunJob (c : Client) (_j : Job) (options : List ClientOption) : RunOutcome :=
  let c : Client := { c with opts := applyClientOptions c.opts options }
  let c : Client :=
    if c.opts.backend = "" then
      { c with opts := applyClientOption c.opts (WithBackend DefaultBackend) }
    else c
  let c : Client :=
    if c.opts.shots = 0 then
      { c with opts := applyClientOption c.opts (WithShots DefaultShots) }
    else c
  if c.opts.seed > MaxSeed then
    { client := c, err := some (seedErr c.opts.seed), postCalls := 0 }
  else
    c.runJobResolve

/-! Concrete scenario inputs used by the claim theorems and witnesses. -/

/-- Last fetched backend with the given name and status "on" (the one a
sequence of Go map assignments leaves in the registry). -/
def lastOn (fetched : List Backend) (k : String) : Option Backend :=
  fetched.foldl (fun acc b => if b.status = "on" ∧ b.name = k then some b else acc) none

/-- Backend "A" as first fetched: online, with some metadata. -/
def backendA1 : Backend := { name := "A", status := "on", nqubits := 5 }

/-- Backend "B" as first fetched: online simulator. -/
def backendB1 : Backend := { name := "B", status := "on", simulator := true }

/-- Backend "A" as fetched the second time: now off. -/
def backendA2 : Backend := { name := "A", status := "off", nqubits := 5 }

/-- Backend "C" as fetched the second time: online. -/
def backendC2 : Backend := { name := "C", status := "on" }

/-- Connection used by the concrete registry example. -/
def exampleConn : Conn := { dopts := {} }

/-- Two successive `AvailableBackends` calls on a fresh client: the first
fetch returns A(on) and B(on), the second returns A(off) and C(on). -/
def exampleFetchTwice : Option (Client × List (String × Backend)) :=
  ((NewClient exampleConn []).AvailableBackends [] (fun _ => .ok [backendA1, backendB1])).bind
    (fun p => p.1.AvailableBackends [] (fun _ => .ok [backendA2, backendC2]))

/-- Response with status 500 used by the retry scenarios. -/
def resp500 : HttpResponse := { statusCode := 500 }

/-- Response with status 200 used by the retry scenarios. -/
def resp200 : HttpResponse := { statusCode := 200 }

/-- Response with status 401 used by the re-authentication scenarios. -/
def resp401 : HttpResponse := { statusCode := 401 }

/-- Transport that answers every call with the same 500 response. -/
def always500 : Transport := fun _ => .resp resp500

/-- Transport that answers the first k calls with 500 and every later call
with 200. -/
def first500then200 (k : Nat) : Transport :=
  fun i => if i < k then .resp resp500 else .resp resp200

/-- Transport that answers the first call with 401 and every later call with
200. -/
def t401then200 : Transport :=
  fun i => if i = 0 then .resp resp401 else .resp resp200

/-- Connection with the default retry budget of 5, used as witness input. -/
def connRetry5 : Conn := { dopts := { retries := 5 } }

/-- Connection used by the re-authentication witness. -/
def connReauth : Conn :=
  { dopts := { retries := 5, apiToken := "tok", url := "https://example" } }

/-- Body shaped like the known server error for an oversized register, the
shape `maxQubitErrRegex` in client.go was written to recognize. -/
def registerSizeBody : String :=
  "The register exceed the number of qubits, it can\x27t be greater than 5."

/-- Non-200 response carrying the register-size error body. -/
def registerSizeResp : HttpResponse := { statusCode := 400, body := registerSizeBody }

/-- Transport constantly answering with the register-size error response. -/
def alwaysRegisterSize : Transport := fun _ => .resp registerSizeResp

/-- Post oracle answering every submission with an error-free decoded
response. -/
def postOk : PostOracle := fun _ _ _ => .ok {}

/-- Timestamp used by the concrete submission examples. -/
def exampleNow : TimeStamp := {}

/-- Client whose stored seed exceeds the maximum, used as witness input. -/
def clientBigSeed : Client :=
  { opts := { seed := 10000000000 }, conn := exampleConn, backends := [], jobs := [] }

/-- Online simulator backend registered under the name "sim". -/
def backendSim : Backend := { name := "sim", status := "on", simulator := true }

/-- Client whose stored backend "sim" resolves through the live registry. -/
def clientWithSim : Client :=
  { opts := { clientAppl := DefaultClientAppl, backend := "sim" },
    conn := exampleConn, backends := [("sim", backendSim)], jobs := [] }

/-- Job value used by the `RunJob` examples. -/
def jobSim : Job := NewJob ["OPENQASM 2.0;\nqreg q[1];"] 1 1

/-- Login oracle whose 200 response decodes to a `loginResp` with an empty
id and user id (all zero values). -/
def loginEmptyId : LoginOracle := fun _ _ => .ok {}

/-- Connection that `Dial` successfully returns against `loginEmptyId`. -/
def dialedEmptyTokenConn : Conn :=
  { dopts := { apiToken := "token123", url := DefaultUrl, retries := DefaultRetries,
               timeout := DefaultTimeout } }

/-- Login oracle whose decoded response carries a non-empty id. -/
def loginGoodId : LoginOracle := fun _ _ => .ok { userId := "user-1", id := "tok-1" }

/-- Connection that `Dial` successfully returns against `loginGoodId`. -/
def dialedGoodConn : Conn :=
  { dopts := { apiToken := "token123", url := DefaultUrl, retries := DefaultRetries,
               timeout := DefaultTimeout, userId := "user-1", accessToken := "tok-1" } }

/-- Connection that `Dial` successfully returns when an access token and
user id are pre-supplied through `WithAccessInfo` (no login exchange runs). -/
def dialedPreConn : Conn :=
  { dopts := { accessToken := "pre-tok", userId := "pre-user", url := DefaultUrl,
               retries := DefaultRetries, timeout := DefaultTimeout } }

/-! Helper lemmas. -/

theorem applyClientOption_eq (opts : clientOptions) (o : ClientOption) :
    applyClientOption opts o = opts := rfl

/-- Applying any list of client options by value leaves the stored options
unchanged (each application mutates a discarded copy). -/
theorem applyClientOptions_eq (opts : clientOptions) (os : List ClientOption) :
    applyClientOptions opts os = opts := by
  induction os generalizing opts with
  | nil => rfl
  | cons o os ih => simpa [applyClientOptions, List.foldl] using ih opts

/-- Lookup in a filtered association list, when the key filtered away is not
the one looked up. -/
theorem lookup_filter_ne (m : List (String × Backend)) (k j : String) (h : j ≠ k) :
    (m.filter (fun p => p.1 != k)).lookup j = m.lookup j := by
  induction m with
  | nil => rfl
  | cons p m ih =>
    by_cases hp : p.1 = k
    · have hj : (j == p.1) = false := by simp [hp, h]
      have hjk : (j == k) = false := by simp [h]
      simp [List.filter_cons, hp, List.lookup, hj, hjk, ih]
    · simp only [List.filter_cons]
      have : (p.1 != k) = true := by simp [hp]
      simp only [this, if_true]
      by_cases hj : j = p.1
      · simp [List.lookup, hj]
      · have hj1 : (j == p.1) = false := by simp [hj]
        simp [List.lookup, hj1, ih]

/-- Lookup after a Go map assignment. -/
theorem lookup_mapInsert (m : List (String × Backend)) (k j : String) (v : Backend) :
    (mapInsert m k v).lookup j = if j = k then some v else m.lookup j := by
  unfold mapInsert
  by_cases h : j = k
  · simp [List.lookup, h]
  · have h1 : (j == k) = false := by simp [h]
    simp [List.lookup, h1, h, lookup_filter_ne m k j h]

/-- Shifting the accumulator of the `lastOn` fold. -/
theorem lastOn_foldl_shift (k : String) (l : List Backend) (acc : Option Backend) :
    l.foldl (fun acc b => if b.status = "on" ∧ b.name = k then some b else acc) acc =
      match l.foldl (fun acc b => if b.status = "on" ∧ b.name = k then some b else acc) none with
      | some b => some b
      | none => acc := by
  induction l generalizing acc with
  | nil => rfl
  | cons b l ih =>
    simp only [List.foldl_cons]
    rw [ih, ih (if b.status = "on" ∧ b.name = k then some b else none)]
    cases l.foldl (fun acc b => if b.status = "on" ∧ b.name = k then some b else acc) none with
    | some c => rfl
    | none =>
      by_cases hb : b.status = "on" ∧ b.name = k
      · simp [hb]
      · simp [hb]

/-- Unfolding `lastOn` over the head of the fetched list. -/
theorem lastOn_cons (b : Backend) (l : List Backend) (k : String) :
    lastOn (b :: l) k =
      match lastOn l k with
      | some c => some c
      | none => if b.status = "on" ∧ b.name = k then some b else none := by
  unfold lastOn
  simp only [List.foldl_cons]
  exact lastOn_foldl_shift k l _

/-- Registry lookup after the `AvailableBackends` update loop: the last
fetched "on" backend of that name wins, and names not fetched as "on" keep
their previous binding. -/
theorem lookup_insertOnBackends (fetched : List Backend) (m : List (String × Backend))
    (k : String) :
    (insertOnBackends m fetched).lookup k =
      match lastOn fetched k with
      | some b => some b
      | none => m.lookup k := by
  induction fetched generalizing m with
  | nil => rfl
  | cons b l ih =>
    have step : insertOnBackends m (b :: l) =
        insertOnBackends (if b.status = "on" then mapInsert m b.name b else m) l := by
      simp [insertOnBackends, List.foldl_cons]
    rw [step, ih, lastOn_cons]
    cases hl : lastOn l k with
    | some c => rfl
    | none =>
      by_cases hst : b.status = "on"
      · by_cases hnm : b.name = k
        · simp [hst, hnm, lookup_mapInsert]
        · have hand : ¬(b.status = "on" ∧ b.name = k) := fun hc => hnm hc.2
          have hk : k ≠ b.name := fun hc => hnm hc.symm
          simp [hst, hand, hnm, lookup_mapInsert, hk]
      · have hand : ¬(b.status = "on" ∧ b.name = k) := fun hc => hst hc.1
        simp [hst, hand]

/-! Claim theorems. -/

/-- C3: for every backend name and operation kind, `checkBackend` tries two
paths in order: only when the operation kind is "experiment", the
lower-cased input name is looked up in the static legacy-alias table (so
"simulator" resolves to "sim_trivial_2" and "ibmqx2" to "real") and a hit
returns the mapped canonical name immediately, without consulting the live
registry (the first branch of the right-hand side below does not mention
`c.backends`); otherwise the original-case input name is looked up in the
live registry, a hit returns the lower-cased input name, and a miss returns
the empty string. -/
theorem checkBackend_resolution (c : Client) (name kind : String) :
    (c.checkBackend name kind).2 =
      (match (if kind = "experiment" then OldBackendNames.lookup (goToLower name) else none) with
       | some b => b
       | none => if (c.backends.lookup name).isSome then goToLower name else "") ∧
    (c.checkBackend "simulator" "experiment").2 = "sim_trivial_2" ∧
    (c.checkBackend "ibmqx2" "experiment").2 = "real" := by
  refine ⟨?_, rfl, rfl⟩
  unfold Client.checkBackend
  by_cases hk : kind = "experiment"
  · simp only [hk, if_true, reduceIte]
    cases h : OldBackendNames.lookup (goToLower name) with
    | some b => simp [h]
    | none =>
      cases h2 : c.backends.lookup name with
      | some b => simp [h, h2]
      | none => simp [h, h2]
  · simp only [hk, if_false, reduceIte]
    cases h2 : c.backends.lookup name with
    | some b => simp [hk, h2]
    | none => simp [hk, h2]

/-- C10: backend resolution via `checkBackend` leaves the client state
unchanged - the full client, and in particular its backend registry, its
jobs map and its stored option set, are identical before and after the call;
resolution is a pure read of the registry. -/
theorem checkBackend_pure (c : Client) (backendName endpoint : String) :
    (c.checkBackend backendName endpoint).1 = c ∧
    (c.checkBackend backendName endpoint).1.backends = c.backends ∧
    (c.checkBackend backendName endpoint).1.jobs = c.jobs ∧
    (c.checkBackend backendName endpoint).1.opts = c.opts := by
  have h : (c.checkBackend backendName endpoint).1 = c := by
    unfold Client.checkBackend
    split
    · dsimp only
      split
      · rfl
      · split <;> rfl
    · dsimp only
      split <;> rfl
  exact ⟨h, by rw [h], by rw [h], by rw [h]⟩

/-- C4: every `AvailableBackends` call with a successfully fetched list
inserts exactly the returned backends whose status equals "on" (the last one
of a given name overwriting any existing entry), never removes an existing
entry, leaves the rest of the client state unchanged, and returns the full
accumulated registry rather than only the newly fetched batch.  Concretely,
after a first fetch returning A(on), B(on) and a second returning A(off),
C(on), the registry holds A (with its first-fetch metadata, since the "off"
record is not inserted), B and C. -/
theorem availableBackends_registry (c : Client) (options : List ClientOption)
    (fetched : List Backend) :
    (∃ c2, c.AvailableBackends options (fun _ => Except.ok fetched) = some (c2, c2.backends) ∧
      c2.backends = insertOnBackends c.backends fetched ∧
      (∀ k, c2.backends.lookup k =
        match lastOn fetched k with
        | some b => some b
        | none => c.backends.lookup k) ∧
      (∀ k, (c.backends.lookup k).isSome → (c2.backends.lookup k).isSome) ∧
      c2.opts = c.opts ∧ c2.jobs = c.jobs ∧ c2.conn = c.conn) ∧
    (∃ p, exampleFetchTwice = some p ∧
      p.2.lookup "A" = some backendA1 ∧
      p.2.lookup "B" = some backendB1 ∧
      p.2.lookup "C" = some backendC2 ∧
      p.2 = p.1.backends) := by
  have hopts := applyClientOptions_eq c.opts options
  constructor
  · refine ⟨{ c with backends := insertOnBackends c.backends fetched },
      ?_, rfl, ?_, ?_, rfl, rfl, rfl⟩
    · unfold Client.AvailableBackends
      dsimp only
      rw [hopts]
    · intro k
      exact lookup_insertOnBackends fetched c.backends k
    · intro k h
      have : ({ c with backends := insertOnBackends c.backends fetched } : Client).backends
          = insertOnBackends c.backends fetched := rfl
      rw [this, lookup_insertOnBackends]
      cases lastOn fetched k with
      | some b => simp
      | none => simpa using h
  · exact ⟨_, rfl, rfl, rfl, rfl, rfl⟩

/-! Retry engine lemmas. -/

/-- A transport constantly answering with one fixed response that is neither
401 nor 200 drains the whole remaining budget, one unit per response, and
ends in the generic exhaustion error. -/
theorem doLoop_const_fail (r : HttpResponse) (h401 : r.statusCode ≠ 401)
    (h200 : r.statusCode ≠ 200) (reauth : ReauthOracle) :
    ∀ (n : Nat) (lastResp : Option HttpResponse) (dopts : dialOptions) (calls reauths : Nat),
      doLoop (fun _ => .resp r) reauth n lastResp dopts calls reauths =
        (dopts, calls + n, reauths,
          .ret (if n = 0 then lastResp else some r) (some failedRespErr)) := by
  intro n
  induction n with
  | zero => intro lastResp dopts calls reauths; simp [doLoop]
  | succ n ih =>
    intro lastResp dopts calls reauths
    simp only [doLoop]
    rw [if_neg h401, if_neg h200, ih]
    have hc : calls + 1 + n = calls + (n + 1) := by omega
    simp [hc]

/-- If the transport answers the first j calls (relative to the current call
counter) with non-401 non-200 responses and the next call with 200, the loop
returns that 200 response after exactly j+1 further transport calls, touching
neither the options nor the re-authentication counter. -/
theorem doLoop_first200 (reauth : ReauthOracle) :
    ∀ (j n : Nat) (t : Transport) (calls : Nat) (lastResp : Option HttpResponse)
      (dopts : dialOptions) (reauths : Nat),
      (∀ i, i < j → ∃ r, t (calls + i) = .resp r ∧ r.statusCode ≠ 401 ∧ r.statusCode ≠ 200) →
      t (calls + j) = .resp resp200 →
      j < n →
      doLoop t reauth n lastResp dopts calls reauths =
        (dopts, calls + j + 1, reauths, .ret (some resp200) none) := by
  intro j
  induction j with
  | zero =>
    intro n t calls lastResp dopts reauths _hfail h200 hlt
    obtain ⟨m, rfl⟩ : ∃ m, n = m + 1 := ⟨n - 1, by omega⟩
    have h0 : t calls = .resp resp200 := by simpa using h200
    simp [doLoop, h0, resp200]
  | succ j ih =>
    intro n t calls lastResp dopts reauths hfail h200 hlt
    obtain ⟨m, rfl⟩ : ∃ m, n = m + 1 := ⟨n - 1, by omega⟩
    obtain ⟨r, hr, hr401, hr200⟩ := hfail 0 (Nat.succ_pos j)
    have hr0 : t calls = .resp r := by simpa using hr
    simp only [doLoop, hr0]
    rw [if_neg hr401, if_neg hr200]
    have hrec := ih m t (calls + 1) (some r) dopts reauths
      (fun i hi => by
        have := hfail (i + 1) (by omega)
        simpa [Nat.add_assoc, Nat.add_comm 1 i] using this)
      (by simpa [Nat.add_assoc, Nat.add_comm 1 j] using h200)
      (by omega)
    rw [hrec]
    have hc : calls + 1 + j = calls + (j + 1) := by omega
    simp [hc]

/-- The retry loop never writes the credential fields of the options: only
`userId` and `accessToken` are updated by a successful re-authentication. -/
theorem doLoop_credentials (t : Transport) (reauth : ReauthOracle) :
    ∀ (n : Nat) (lastResp : Option HttpResponse) (dopts : dialOptions) (calls reauths : Nat),
      (doLoop t reauth n lastResp dopts calls reauths).1.apiToken = dopts.apiToken ∧
      (doLoop t reauth n lastResp dopts calls reauths).1.email = dopts.email ∧
      (doLoop t reauth n lastResp dopts calls reauths).1.password = dopts.password := by
  intro n
  induction n with
  | zero => intro lastResp dopts calls reauths; exact ⟨rfl, rfl, rfl⟩
  | succ n ih =>
    intro lastResp dopts calls reauths
    simp only [doLoop]
    cases t calls with
    | err e => exact ⟨rfl, rfl, rfl⟩
    | resp r =>
      dsimp only
      by_cases h401 : r.statusCode = 401
      · rw [if_pos h401]
        cases reauth reauths with
        | error e => exact ⟨rfl, rfl, rfl⟩
        | ok p =>
          obtain ⟨uid, tok⟩ := p
          dsimp only
          cases t (calls + 1) with
          | err e2 => exact ⟨rfl, rfl, rfl⟩
          | resp r2 =>
            dsimp only
            by_cases h2 : r2.statusCode = 200
            · rw [if_pos h2]; exact ⟨rfl, rfl, rfl⟩
            · rw [if_neg h2]
              exact ih (some r2) _ (calls + 2) (reauths + 1)
      · rw [if_neg h401]
        by_cases h2 : r.statusCode = 200
        · rw [if_pos h2]; exact ⟨rfl, rfl, rfl⟩
        · rw [if_neg h2]
          exact ih (some r) dopts (calls + 1) reauths

/-- C1: with configured retry count N, the retry loop of `Conn.do` terminates
on the first 200-OK response and every other non-200 response consumes one
unit of the retry budget: a transport always returning 500 fails after
exactly N attempts with the generic "Failed to get proper response from
backend" `ApiErr`, and a transport returning 500 for the first k < N
attempts and then 200 succeeds after exactly k+1 attempts. -/
theorem conn_do_retry_budget (c : Conn) (N : Nat) (h : c.dopts.retries = (N : Int)) :
    (∀ reauth : ReauthOracle,
      c.doRequest always500 reauth =
        (c.dopts, N, 0, .ret (if N = 0 then none else some resp500) (some failedRespErr))) ∧
    (∀ (k : Nat) (reauth : ReauthOracle), k < N →
      c.doRequest (first500then200 k) reauth =
        (c.dopts, k + 1, 0, .ret (some resp200) none)) := by
  have htn : c.dopts.retries.toNat = N := by rw [h]; simp
  constructor
  · intro reauth
    unfold Conn.doRequest
    rw [htn]
    simpa using doLoop_const_fail resp500 (by decide) (by decide) reauth N none c.dopts 0 0
  · intro k reauth hk
    unfold Conn.doRequest
    rw [htn]
    have hfail : ∀ i, i < k → ∃ r, first500then200 k (0 + i) = .resp r ∧
        r.statusCode ≠ 401 ∧ r.statusCode ≠ 200 := by
      intro i hi
      exact ⟨resp500, by simp [first500then200, hi], by decide, by decide⟩
    have h200 : first500then200 k (0 + k) = .resp resp200 := by
      simp [first500then200]
    simpa using doLoop_first200 reauth k N (first500then200 k) 0 none c.dopts 0 hfail h200 hk

/-- Witness for `conn_do_retry_budget`: retries = 5, always-500 fails after
5 attempts, 500-500-200 succeeds after 3 attempts. -/
theorem conn_do_retry_budget_witness :
    connRetry5.dopts.retries = ((5 : Nat) : Int) ∧ 2 < 5 ∧
    connRetry5.doRequest always500 (fun _ => .error (.netErr "down")) =
      (connRetry5.dopts, 5, 0, .ret (some resp500) (some failedRespErr)) ∧
    connRetry5.doRequest (first500then200 2) (fun _ => .error (.netErr "down")) =
      (connRetry5.dopts, 3, 0, .ret (some resp200) none) := by
  refine ⟨by decide, by decide, ?_, ?_⟩
  · simpa using
      (conn_do_retry_budget connRetry5 5 (by decide)).1 (fun _ => .error (.netErr "down"))
  · exact (conn_do_retry_budget connRetry5 5 (by decide)).2 2
      (fun _ => .error (.netErr "down")) (by decide)

/-- C2: a 401 response triggers exactly one re-authentication, after which
the original request is re-issued exactly once within the same loop
iteration: with a transport returning 401 once and then 200, the call
succeeds with exactly one re-authentication attempt and two transport calls,
the connection now carrying the user id and access token the
re-authentication stored.  If the re-authentication itself fails, its error
propagates to the caller unchanged and immediately (one transport call, one
re-authentication attempt, no further retries).  Re-authentication always
uses the original credential source: the retry loop never writes the
apiToken, email or password fields, and neither does a successful
`obtainToken` (which reads them and writes only userId and accessToken). -/
theorem conn_do_reauth_on_401 (c : Conn) (N : Nat) (h : c.dopts.retries = (N : Int))
    (hN : 1 ≤ N) :
    (∀ (uid tok : String) (reauth : ReauthOracle), reauth 0 = .ok (uid, tok) →
      c.doRequest t401then200 reauth =
        ({ c.dopts with userId := uid, accessToken := tok }, 2, 1, .ret (some resp200) none)) ∧
    (∀ (t : Transport) (r : HttpResponse) (e : GoError) (reauth : ReauthOracle),
      t 0 = .resp r → r.statusCode = 401 → reauth 0 = .error e →
      c.doRequest t reauth = (c.dopts, 1, 1, .ret (some r) (some e))) ∧
    (∀ (t : Transport) (reauth : ReauthOracle),
      (c.doRequest t reauth).1.apiToken = c.dopts.apiToken ∧
      (c.doRequest t reauth).1.email = c.dopts.email ∧
      (c.doRequest t reauth).1.password = c.dopts.password) ∧
    (∀ (cn : Conn) (login : LoginOracle) (c2 : Conn), cn.obtainToken login = Except.ok c2 →
      c2.dopts.apiToken = cn.dopts.apiToken ∧ c2.dopts.email = cn.dopts.email ∧
      c2.dopts.password = cn.dopts.password) := by
  have htn : c.dopts.retries.toNat = N := by rw [h]; simp
  obtain ⟨m, rfl⟩ : ∃ m, N = m + 1 := ⟨N - 1, by omega⟩
  refine ⟨?_, ?_, ?_, ?_⟩
  · intro uid tok reauth hre
    unfold Conn.doRequest
    rw [htn]
    simp [doLoop, t401then200, hre, resp401, resp200]
  · intro t r e reauth ht0 h401 hre
    unfold Conn.doRequest
    rw [htn]
    simp only [doLoop]
    rw [show t 0 = .resp r from ht0]
    dsimp only
    rw [if_pos h401, hre]
  · intro t reauth
    unfold Conn.doRequest
    exact doLoop_credentials t reauth _ none c.dopts 0 0
  · intro cn login c2 hok
    unfold Conn.obtainToken at hok
    split at hok
    · dsimp only at hok
      split at hok
      · exact absurd hok (by simp)
      · injection hok with h2
        subst h2
        exact ⟨rfl, rfl, rfl⟩
    · split at hok
      · dsimp only at hok
        split at hok
        · exact absurd hok (by simp)
        · injection hok with h2
          subst h2
          exact ⟨rfl, rfl, rfl⟩
      · exact absurd hok (by simp)

/-- Witness for `conn_do_reauth_on_401`: a 401-then-200 transport with a
succeeding re-authentication, and a constantly 401 transport with a failing
re-authentication. -/
theorem conn_do_reauth_on_401_witness :
    connReauth.doRequest t401then200 (fun _ => .ok ("uid2", "tok2")) =
      ({ connReauth.dopts with userId := "uid2", accessToken := "tok2" },
        2, 1, .ret (some resp200) none) ∧
    connReauth.doRequest (fun _ => .resp resp401) (fun _ => .error (.netErr "login down")) =
      (connReauth.dopts, 1, 1, .ret (some resp401) (some (.netErr "login down"))) := by
  constructor
  · exact (conn_do_reauth_on_401 connReauth 5 (by decide) (by decide)).1 "uid2" "tok2" _ rfl
  · exact (conn_do_reauth_on_401 connReauth 5 (by decide) (by decide)).2.1 _ resp401 _ _
      rfl rfl rfl

/-- C6 (evidence for a code bug): a response whose body matches the known
register-size error shape is NOT recognized by `Conn.do` - the non-200
branch never reads the body (`maxQubitErrRegex` and `NewRegisterSizeErr`
are defined but never called; the branch holds only a TODO comment) - so the
response consumes one retry like any other failure, and after the budget is
exhausted the generic exhaustion `ApiErr` is returned instead of a
`RegisterSizeError` carrying the allowed maximum. -/
theorem conn_do_ignores_register_size (c : Conn) (N : Nat)
    (h : c.dopts.retries = (N : Int)) (reauth : ReauthOracle) :
    c.doRequest alwaysRegisterSize reauth =
      (c.dopts, N, 0,
        .ret (if N = 0 then none else some registerSizeResp) (some failedRespErr)) := by
  have htn : c.dopts.retries.toNat = N := by rw [h]; simp
  unfold Conn.doRequest
  rw [htn]
  simpa using
    doLoop_const_fail registerSizeResp (by decide) (by decide) reauth N none c.dopts 0 0

/-- Witness for `conn_do_ignores_register_size`: with the default budget of
5, the call makes 5 attempts and ends in the generic error. -/
theorem conn_do_ignores_register_size_witness :
    connRetry5.doRequest alwaysRegisterSize (fun _ => .error (.netErr "down")) =
      (connRetry5.dopts, 5, 0, .ret (some registerSizeResp) (some failedRespErr)) := by
  simpa using
    conn_do_ignores_register_size connRetry5 5 (by decide) (fun _ => .error (.netErr "down"))

/-! Submission-path lemmas and claims. -/

/-- The default block touches only backend, name and shots; the seed is
unchanged. -/
theorem applyRunDefaults_seed (c : Client) (now : TimeStamp) :
    (applyRunDefaults c now).opts.seed = c.opts.seed := by
  unfold applyRunDefaults
  dsimp only
  split <;> split <;> split <;> rfl

/-- Unfolding `RunExperiment` after discarding the by-value option
applications. -/
theorem runExperiment_eq (c : Client) (qasm : String) (options : List ClientOption)
    (now : TimeStamp) (post : PostOracle) :
    c.RunExperiment qasm options now post =
      (if (applyRunDefaults c now).opts.seed > MaxSeed then
        { client := applyRunDefaults c now,
          err := some (seedErr (applyRunDefaults c now).opts.seed), postCalls := 0 }
      else (applyRunDefaults c now).runExperimentSubmit qasm post) := by
  unfold Client.RunExperiment
  rw [applyClientOptions_eq]

/-- Unfolding `RunJob` after discarding the by-value option applications and
the by-value defaulting (both of which leave the client unchanged). -/
theorem runJob_eq (c : Client) (j : Job) (options : List ClientOption) :
    c.RunJob j options =
      (if c.opts.seed > MaxSeed then
        { client := c, err := some (seedErr c.opts.seed), postCalls := 0 }
      else c.runJobResolve) := by
  unfold Client.RunJob
  rw [applyClientOptions_eq]
  dsimp only
  split <;> split <;> rfl

/-- C5: in both `RunExperiment` and `RunJob`, when the effective (stored)
seed exceeds `MaxSeed` = 9999999999 the call returns the user-facing seed
`ApiErr` and performs no network call; every seed at most `MaxSeed` passes
the validation, i.e. the call proceeds to the backend-resolution and
submission continuation. -/
theorem run_seed_validation (c : Client) (qasm : String)
    (options joptions : List ClientOption) (now : TimeStamp) (post : PostOracle) (j : Job) :
    (MaxSeed < c.opts.seed →
      (c.RunExperiment qasm options now post).err = some (seedErr c.opts.seed) ∧
      (c.RunExperiment qasm options now post).postCalls = 0 ∧
      (c.RunJob j joptions).err = some (seedErr c.opts.seed) ∧
      (c.RunJob j joptions).postCalls = 0) ∧
    (c.opts.seed ≤ MaxSeed →
      c.RunExperiment qasm options now post =
        (applyRunDefaults c now).runExperimentSubmit qasm post ∧
      c.RunJob j joptions = c.runJobResolve) := by
  have hseedE := applyRunDefaults_seed c now
  constructor
  · intro hgt
    rw [runExperiment_eq, runJob_eq, if_pos (show MaxSeed < (applyRunDefaults c now).opts.seed
      from hseedE ▸ hgt), if_pos hgt]
    exact ⟨by rw [hseedE], rfl, rfl, rfl⟩
  · intro hle
    rw [runExperiment_eq, runJob_eq,
      if_neg (show ¬MaxSeed < (applyRunDefaults c now).opts.seed from hseedE ▸ not_lt.mpr hle),
      if_neg (not_lt.mpr hle)]
    exact ⟨rfl, rfl⟩

/-- Witness for `run_seed_validation`: a stored seed of 10000000000 is
rejected by both calls with zero posts, and seed 0 (of a fresh client)
passes the validation. -/
theorem run_seed_validation_witness :
    (MaxSeed < (10000000000 : Nat) ∧
      (clientBigSeed.RunExperiment "" [] exampleNow postOk).err =
        some (seedErr 10000000000) ∧
      (clientBigSeed.RunExperiment "" [] exampleNow postOk).postCalls = 0 ∧
      (clientBigSeed.RunJob (NewJob [] 1 1) []).err = some (seedErr 10000000000) ∧
      (clientBigSeed.RunJob (NewJob [] 1 1) []).postCalls = 0) ∧
    ((NewClient exampleConn []).RunExperiment "" [] exampleNow postOk =
      (applyRunDefaults (NewClient exampleConn []) exampleNow).runExperimentSubmit "" postOk) := by
  constructor
  · exact ⟨by decide,
      (run_seed_validation clientBigSeed "" [] [] exampleNow postOk (NewJob [] 1 1)).1
        (by decide)⟩
  · exact ((run_seed_validation (NewClient exampleConn []) "" [] [] exampleNow postOk
      (NewJob [] 1 1)).2 (by decide)).1

/-- C7 (evidence for a code bug): client options are applied to a by-value
copy of the stored option set and therefore never persist.  Passing
`WithBackend "ibmqx2"` to `NewClient` leaves the stored backend empty, and
passing it to `RunExperiment` leaves the stored backend at the default
"simulator" (set by the direct default assignment, not by the option); in
general, applying any option list to any stored options is the identity. -/
theorem client_options_discarded :
    (NewClient exampleConn [WithBackend "ibmqx2"]).opts.backend = "" ∧
    ((NewClient exampleConn []).RunExperiment "" [WithBackend "ibmqx2"]
        exampleNow postOk).client.opts.backend = "simulator" ∧
    ("simulator" : String) ≠ "ibmqx2" ∧
    (∀ (opts : clientOptions) (os : List ClientOption), applyClientOptions opts os = opts) :=
  ⟨rfl, rfl, by decide, applyClientOptions_eq⟩

/-- C8 (evidence for a code bug): `RunJob` never performs a network call -
after the (ineffective, by-value) option merge and defaulting, the seed
check and the backend resolution with operation kind "job", it returns nil
without constructing or dispatching any submission body.  On a fresh client
the "simulator" default is lost (it is applied through a by-value option),
so the empty backend name is resolved and `RunJob` returns a BadBackendErr
naming the empty string; with a registry-resolvable backend it returns nil
while making zero posts and leaving the job unread. -/
theorem runJob_no_dispatch (c : Client) (j : Job) (options : List ClientOption) :
    (c.RunJob j options).postCalls = 0 ∧
    (NewClient exampleConn []).RunJob jobSim [] =
      { client := NewClient exampleConn [], err := some (.badBackendErr ""), postCalls := 0 } ∧
    clientWithSim.RunJob jobSim [] =
      { client := clientWithSim, err := none, postCalls := 0 } := by
  refine ⟨?_, rfl, rfl⟩
  rw [runJob_eq]
  split
  · rfl
  · unfold Client.runJobResolve
    rcases hcb : c.checkBackend c.opts.backend "job" with ⟨c2, bt⟩
    dsimp only
    split <;> rfl

/-! Dial / token lifecycle claims. -/

/-- Successful `obtainToken` stores exactly the id field of the decoded
login response as the access token. -/
theorem obtainToken_provenance (cn : Conn) (login : LoginOracle) (c2 : Conn)
    (h : cn.obtainToken login = Except.ok c2) :
    ∃ url req r, login url req = Except.ok r ∧ c2.dopts.accessToken = r.id := by
  unfold Conn.obtainToken at h
  split at h
  · dsimp only at h
    split at h
    · exact Except.noConfusion h
    · next r hr =>
      injection h with h2
      subst h2
      exact ⟨_, _, r, hr, rfl⟩
  · split at h
    · dsimp only at h
      split at h
      · exact Except.noConfusion h
      · next r hr =>
        injection h with h2
        subst h2
        exact ⟨_, _, r, hr, rfl⟩
    · exact Except.noConfusion h

/-- C9 counterexample: a successful `Dial` with an empty access-token field.
With an API token supplied and a login exchange whose decoded response
carries an empty id (which `obtainToken` stores unchecked), `Dial` returns
success while the connection's accessToken is the empty string. -/
theorem dial_empty_token_counterexample :
    Dial [WithApiToken "token123"] loginEmptyId = Except.ok dialedEmptyTokenConn ∧
    dialedEmptyTokenConn.dopts.accessToken = "" := ⟨rfl, rfl⟩

/-- The default block of `Dial` touches only url, retries and timeout; the
access token is unchanged. -/
theorem dialDefaults_accessToken (d : dialOptions) :
    (dialDefaults d).accessToken = d.accessToken := by
  unfold dialDefaults
  dsimp only
  split <;> split <;> split <;> rfl

/-- C9 amended, keyed to the credential path: after a successful `Dial`,
when an access token was pre-supplied through the dial options the
connection carries exactly that (non-empty) pre-supplied token, and when no
access token was pre-supplied the connection carries exactly the id field of
the decoded login response - stored without validation, hence non-empty
exactly when the server returned a non-empty id. -/
theorem dial_token_provenance (options : List DialOption) (login : LoginOracle) (c : Conn)
    (h : Dial options login = Except.ok c) :
    ((dialBuiltOptions options).accessToken ≠ "" →
      c.dopts.accessToken = (dialBuiltOptions options).accessToken ∧
      c.dopts.accessToken ≠ "") ∧
    ((dialBuiltOptions options).accessToken = "" →
      ∃ url req r, login url req = Except.ok r ∧ c.dopts.accessToken = r.id) := by
  unfold Dial at h
  dsimp only at h
  split at h
  · exact Except.noConfusion h
  · split at h
    · next hempty =>
      have hd : (dialBuiltOptions options).accessToken = "" := by
        rw [← dialDefaults_accessToken (dialBuiltOptions options)]
        exact hempty
      constructor
      · intro hne
        exact absurd hd hne
      · intro _
        exact obtainToken_provenance _ login c h
    · next hne =>
      injection h with h2
      subst h2
      have hd : (dialBuiltOptions options).accessToken ≠ "" := by
        intro he
        exact hne ((dialDefaults_accessToken (dialBuiltOptions options)).trans he)
      constructor
      · intro _
        exact ⟨dialDefaults_accessToken (dialBuiltOptions options), hd ∘
          (dialDefaults_accessToken (dialBuiltOptions options)).symm.trans⟩
      · intro he
        exact absurd he hd

/-- Witness for `dial_token_provenance` at two concrete successful dials:
one through the login exchange (API token credential, no pre-supplied access
token) and one with a pre-supplied access token. -/
theorem dial_token_provenance_witness :
    (∃ url req r, loginGoodId url req = Except.ok r ∧
      dialedGoodConn.dopts.accessToken = r.id) ∧
    dialedPreConn.dopts.accessToken =
      (dialBuiltOptions [WithAccessInfo "pre-tok" "pre-user"]).accessToken ∧
    dialedPreConn.dopts.accessToken ≠ "" :=
  ⟨(dial_token_provenance [WithApiToken "token123"] loginGoodId dialedGoodConn rfl).2 rfl,
   (dial_token_provenance [WithAccessInfo "pre-tok" "pre-user"] loginGoodId
      dialedPreConn rfl).1 (by decide)⟩

end QiskitApiGo
